import Mathlib

/-
Shallow embedding of the translation backend in `src/backend/server.py`
(an English→Bengali dictionary web API).

Modelling conventions:
- The Mongo collection `db.translations` is a `List Translation`; `insert_one`
  appends to the list; `find().sort("timestamp", -1).limit(n)` is a sort by
  the `timestamp` field, descending, followed by `take n`.
- `str(uuid.uuid4())` and `datetime.utcnow()` are modelled as explicit
  parameters `freshId : String` and `now : Nat` supplied per request.
- The external LLM call inside `get_ai_translation` is an oracle
  `ai : String → AiOutcome`: an exception during the call, a response body
  that is not valid JSON, or a parsed JSON object.
- A parsed JSON object is an `AiEntry`: the five fields the prompt asks for,
  each `Option` (`none` = key absent, read with `dict.get(key, default)`),
  plus the list of any other keys, which only matter for Python dict
  truthiness (`if ai_result:`).
- `request.word.lower().strip()` is `normalizeWord`: ASCII lowercasing
  (the dictionary keys are ASCII) followed by stripping Unicode whitespace
  on both ends, as Python `str.strip` does.
- `raise HTTPException(400, ...)` is the `TranslateResult.badRequest`
  constructor; a 200 response body is `TranslateResult.ok`.
-/

namespace BengaliDict

/-- Characters stripped by Python `str.strip()` (the Unicode whitespace set
used by `str.isspace`). -/
def pyIsSpace (c : Char) : Bool :=
  c.toNat == 32 || c.toNat == 9 || c.toNat == 10 || c.toNat == 11 ||
  c.toNat == 12 || c.toNat == 13 || (28 ≤ c.toNat && c.toNat ≤ 31) ||
  c.toNat == 133 || c.toNat == 160 || c.toNat == 0x1680 ||
  (0x2000 ≤ c.toNat && c.toNat ≤ 0x200a) || c.toNat == 0x2028 ||
  c.toNat == 0x2029 || c.toNat == 0x202f || c.toNat == 0x205f ||
  c.toNat == 0x3000

/-- ASCII lowercasing of one character, as Python `str.lower` acts on the
ASCII range (all offline dictionary keys are ASCII). -/
def pyLowerChar (c : Char) : Char :=
  if 65 ≤ c.toNat && c.toNat ≤ 90 then Char.ofNat (c.toNat + 32) else c

/-- Python `s.lower()` restricted to ASCII case mapping. -/
def pyLower (s : String) : String :=
  ⟨s.toList.map pyLowerChar⟩

/-- Python `s.strip()`: drop leading and trailing whitespace. -/
def pyStrip (s : String) : String :=
  ⟨((s.toList.dropWhile pyIsSpace).reverse.dropWhile pyIsSpace).reverse⟩

/-- The lookup key built at the top of `translate_word`:
`word = request.word.lower().strip()`. -/
def normalizeWord (s : String) : String :=
  pyStrip (pyLower s)

/-- One value of the `OFFLINE_DICTIONARY` mapping in `server.py`. -/
structure DictionaryEntry where
  bengali : String
  pronunciation : String
  definition : String
  part_of_speech : String
  examples : List String
deriving DecidableEq, Repr

/-- The `OFFLINE_DICTIONARY` constant of `server.py`, as an association list
from lowercase word to entry, in source order. It is never modified by any
operation of the program (the Python dict is only ever read). -/
def OFFLINE_DICTIONARY : List (String × DictionaryEntry) :=
  [ ("hello",
     { bengali := "হ্যালো / নমস্কার",
       pronunciation := "hæloʊ",
       definition := "A greeting; an expression of welcome or salutation",
       part_of_speech := "interjection",
       examples := ["Hello, how are you today?",
                    "She said hello to everyone at the party."] }),
    ("book",
     { bengali := "বই / পুস্তক",
       pronunciation := "bʊk",
       definition := "A written or printed work consisting of pages bound together",
       part_of_speech := "noun",
       examples := ["I love reading a good book before bed.",
                    "The library has thousands of books."] }),
    ("water",
     { bengali := "পানি / জল",
       pronunciation := "ˈwɔːtər",
       definition := "A clear, colorless, odorless liquid essential for life",
       part_of_speech := "noun",
       examples := ["Drink plenty of water to stay hydrated.",
                    "The water in the lake is crystal clear."] }),
    ("food",
     { bengali := "খাবার / আহার",
       pronunciation := "fuːd",
       definition := "Any nutritious substance consumed to sustain life and growth",
       part_of_speech := "noun",
       examples := ["The food at this restaurant is delicious.",
                    "We need to buy food for dinner."] }),
    ("home",
     { bengali := "বাড়ি / ঘর",
       pronunciation := "hoʊm",
       definition := "The place where one lives permanently",
       part_of_speech := "noun",
       examples := ["There\x27s no place like home.",
                    "I\x27m going home after work."] }),
    ("love",
     { bengali := "ভালোবাসা / প্রেম",
       pronunciation := "lʌv",
       definition := "An intense feeling of deep affection",
       part_of_speech := "noun/verb",
       examples := ["I love spending time with my family.",
                    "Love conquers all obstacles."] }),
    ("friend",
     { bengali := "বন্ধু / বান্ধব",
       pronunciation := "frend",
       definition := "A person whom one knows and with whom one has a bond of mutual affection",
       part_of_speech := "noun",
       examples := ["She is my best friend since childhood.",
                    "A true friend is always there for you."] }),
    ("school",
     { bengali := "স্কুল / বিদ্যালয়",
       pronunciation := "skuːl",
       definition := "An institution for educating children",
       part_of_speech := "noun",
       examples := ["Children go to school to learn.",
                    "My school has excellent teachers."] }),
    ("work",
     { bengali := "কাজ / শ্রম",
       pronunciation := "wɜːrk",
       definition := "Activity involving mental or physical effort to achieve a purpose",
       part_of_speech := "noun/verb",
       examples := ["I have a lot of work to finish today.",
                    "Hard work pays off in the end."] }),
    ("happy",
     { bengali := "খুশি / আনন্দিত",
       pronunciation := "ˈhæpi",
       definition := "Feeling or showing pleasure or contentment",
       part_of_speech := "adjective",
       examples := ["I am happy to see you again.",
                    "The children look happy playing in the park."] }),
    ("beautiful",
     { bengali := "সুন্দর / রূপবান",
       pronunciation := "ˈbjuːtɪfəl",
       definition := "Pleasing the senses or mind aesthetically",
       part_of_speech := "adjective",
       examples := ["The sunset is absolutely beautiful.",
                    "She has a beautiful voice."] }),
    ("time",
     { bengali := "সময় / কাল",
       pronunciation := "taɪm",
       definition := "The indefinite continued progress of existence",
       part_of_speech := "noun",
       examples := ["Time flies when you\x27re having fun.",
                    "What time is it now?"] }),
    ("money",
     { bengali := "টাকা / অর্থ",
       pronunciation := "ˈmʌni",
       definition := "A current medium of exchange in the form of coins and banknotes",
       part_of_speech := "noun",
       examples := ["Money can\x27t buy happiness.",
                    "I need to save money for my vacation."] }),
    ("family",
     { bengali := "পরিবার / কুটুম্ব",
       pronunciation := "ˈfæməli",
       definition := "A group consisting of parents and children living together",
       part_of_speech := "noun",
       examples := ["Family is the most important thing in life.",
                    "We\x27re having a family dinner tonight."] }),
    ("health",
     { bengali := "স্বাস্থ্য / আরোগ্য",
       pronunciation := "helθ",
       definition := "The state of being free from illness or injury",
       part_of_speech := "noun",
       examples := ["Good health is more valuable than wealth.",
                    "Regular exercise improves your health."] }) ]

/-- The pydantic `Translation` model: one translation record. `id` and
`timestamp` are filled from the per-request fresh id and clock. -/
structure Translation where
  id : String
  word : String
  bengaliTranslation : String
  pronunciation : String
  definition : String
  examples : List String
  partOfSpeech : String
  timestamp : Nat
  source : String
deriving DecidableEq, Repr

/-- A JSON object parsed from the LLM response: the five prompted fields
(`none` = key absent from the object), plus any other keys present, which
influence only the truthiness test `if ai_result:`. -/
structure AiEntry where
  bengali : Option String := none
  pronunciation : Option String := none
  definition : Option String := none
  part_of_speech : Option String := none
  examples : Option (List String) := none
  extraKeys : List String := []
deriving DecidableEq, Repr

/-- Outcome of the single external LLM call made by `get_ai_translation`:
an exception raised during the call, a response body `json.loads` rejects,
or a parsed JSON object. -/
inductive AiOutcome where
  | serviceError : AiOutcome
  | malformed : AiOutcome
  | parsed : AiEntry → AiOutcome
deriving DecidableEq, Repr

/-- `get_ai_translation` of `server.py`: wraps the LLM call; any exception
is caught and becomes `None`, and a `json.JSONDecodeError` also becomes
`None`; a parsed object is returned as-is. -/
def get_ai_translation (ai : String → AiOutcome) (word : String) :
    Option AiEntry :=
  match ai word with
  | .serviceError => none
  | .malformed => none
  | .parsed e => some e

/-- Python truthiness of the parsed dict in `if ai_result:` (given
`ai_result` is not `None`): a dict is truthy iff it is non-empty. -/
def aiEntryNonempty (e : AiEntry) : Bool :=
  e.bengali.isSome || e.pronunciation.isSome || e.definition.isSome ||
  e.part_of_speech.isSome || e.examples.isSome || !e.extraKeys.isEmpty

/-- Result of one `POST /api/translate` call: the 400 raised for an empty
word, or the 200 body. -/
inductive TranslateResult where
  | badRequest : String → TranslateResult
  | ok : Translation → TranslateResult
deriving DecidableEq, Repr

/-- The record built on the offline-hit branch of `translate_word`: all
content fields copied verbatim from the dictionary entry, `source="offline"`,
`word` kept as the raw request word. -/
def offlineTranslation (reqWord freshId : String) (now : Nat)
    (offline_data : DictionaryEntry) : Translation :=
  { id := freshId,
    word := reqWord,
    bengaliTranslation := offline_data.bengali,
    pronunciation := offline_data.pronunciation,
    definition := offline_data.definition,
    examples := offline_data.examples,
    partOfSpeech := offline_data.part_of_speech,
    timestamp := now,
    source := "offline" }

/-- The record built on the AI-hit branch of `translate_word`: each field is
`ai_result.get(key, default)` with the fixed defaults of the source. -/
def aiTranslation (reqWord freshId : String) (now : Nat)
    (ai_result : AiEntry) : Translation :=
  { id := freshId,
    word := reqWord,
    bengaliTranslation := ai_result.bengali.getD "অনুবাদ পাওয়া যায়নি",
    pronunciation := ai_result.pronunciation.getD "",
    definition := ai_result.definition.getD "No definition available",
    examples := ai_result.examples.getD [],
    partOfSpeech := ai_result.part_of_speech.getD "unknown",
    timestamp := now,
    source := "ai" }

/-- The record built on the template-fallback branch of `translate_word`:
f-strings over the lowercased/stripped `word`, `source="fallback"`. -/
def fallbackTranslation (reqWord freshId : String) (now : Nat) : Translation :=
  { id := freshId,
    word := reqWord,
    bengaliTranslation :=
      "\x27" ++ normalizeWord reqWord ++ "\x27 এর বাংলা অনুবাদ",
    pronunciation := "",
    definition :=
      "Translation for the word \x27" ++ normalizeWord reqWord ++ "\x27",
    examples := ["Example with " ++ normalizeWord reqWord],
    partOfSpeech := "unknown",
    timestamp := now,
    source := "fallback" }

/-- `translate_word` of `server.py` (the `POST /api/translate` handler).
Returns the HTTP result together with the `db.translations` collection after
the call; the offline and AI branches run `insert_one` (append) before
returning, the fallback branch returns without inserting. -/
def translate_word (ai : String → AiOutcome) (freshId : String) (now : Nat)
    (db : List Translation) (reqWord : String) :
    TranslateResult × List Translation :=
  if normalizeWord reqWord = "" then
    (.badRequest "Word cannot be empty", db)
  else
    match OFFLINE_DICTIONARY.lookup (normalizeWord reqWord) with
    | some offline_data =>
        (.ok (offlineTranslation reqWord freshId now offline_data),
         db ++ [offlineTranslation reqWord freshId now offline_data])
    | none =>
        match get_ai_translation ai (normalizeWord reqWord) with
        | some ai_result =>
            if aiEntryNonempty ai_result then
              (.ok (aiTranslation reqWord freshId now ai_result),
               db ++ [aiTranslation reqWord freshId now ai_result])
            else
              (.ok (fallbackTranslation reqWord freshId now), db)
        | none =>
            (.ok (fallbackTranslation reqWord freshId now), db)

/-- `get_recent_translations` of `server.py` (`GET /api/translations`):
`find().sort("timestamp", -1).limit(limit)` — the stored records sorted by
timestamp descending, truncated to `limit`. -/
def get_recent_translations (limit : Nat) (db : List Translation) :
    List Translation :=
  (List.insertionSort (fun a b => b.timestamp ≤ a.timestamp) db).take limit

/-- The FastAPI default for the `limit` query parameter
(`limit: int = 50`). -/
def get_recent_translations_default (db : List Translation) :
    List Translation :=
  get_recent_translations 50 db

/-- Body of `GET /api/dictionary/stats`. -/
structure DictionaryStats where
  total_translations : Nat
  offline_words : Nat
  ai_enhanced_translations : Nat
  total_unique_words : Nat
deriving DecidableEq, Repr

/-- `get_dictionary_stats` of `server.py`: total stored count, size of the
static offline dictionary, count of records with `source="ai"`, and the sum
of the last two. -/
def get_dictionary_stats (db : List Translation) : DictionaryStats :=
  { total_translations := db.length,
    offline_words := OFFLINE_DICTIONARY.length,
    ai_enhanced_translations :=
      (db.filter (fun t => t.source = "ai")).length,
    total_unique_words :=
      OFFLINE_DICTIONARY.length +
        (db.filter (fun t => t.source = "ai")).length }

/-- One `POST /api/translate` call together with its per-request fresh id,
clock reading and AI-oracle behaviour; used to state properties over
arbitrary request traffic. -/
structure TranslateCall where
  reqWord : String
  ai : String → AiOutcome
  freshId : String
  now : Nat

/-- Run a sequence of `/translate` calls against the store, threading the
`db.translations` collection through. -/
def runTranslations (calls : List TranslateCall) (db : List Translation) :
    List Translation :=
  calls.foldl (fun d c => (translate_word c.ai c.freshId c.now d c.reqWord).2) db

/-- The content of a record: every field except the per-request `id` and
`timestamp`. -/
def translationContent (t : Translation) :
    String × String × String × String × List String × String × String :=
  (t.word, t.bengaliTranslation, t.pronunciation, t.definition,
   t.examples, t.partOfSpeech, t.source)

/-- The dictionary never contains the empty word, so an offline hit implies
the normalized word is non-empty (the 400 guard cannot have fired). -/
theorem offline_lookup_empty : OFFLINE_DICTIONARY.lookup "" = none := by decide

/-- The `OFFLINE_DICTIONARY` entry for "hello", for use in concrete
instantiations. -/
def helloEntry : DictionaryEntry :=
  { bengali := "হ্যালো / নমস্কার",
    pronunciation := "hæloʊ",
    definition := "A greeting; an expression of welcome or salutation",
    part_of_speech := "interjection",
    examples := ["Hello, how are you today?",
                 "She said hello to everyone at the party."] }

/-- C1: for every word present in the offline dictionary (after lowercasing
and trimming the request word), `/translate` returns a record with
`source=offline` whose bengaliTranslation, pronunciation, definition,
examples and partOfSpeech equal the stored dictionary entry's fields
verbatim. -/
theorem translate_offline_hit (ai : String → AiOutcome)
    (reqWord freshId : String) (now : Nat) (db : List Translation)
    (entry : DictionaryEntry)
    (hhit : OFFLINE_DICTIONARY.lookup (normalizeWord reqWord) = some entry) :
    ∃ t, (translate_word ai freshId now db reqWord).1 = .ok t ∧
      t.source = "offline" ∧
      t.bengaliTranslation = entry.bengali ∧
      t.pronunciation = entry.pronunciation ∧
      t.definition = entry.definition ∧
      t.examples = entry.examples ∧
      t.partOfSpeech = entry.part_of_speech := by
  have hw : ¬ normalizeWord reqWord = "" := by
    intro h
    rw [h, offline_lookup_empty] at hhit
    exact Option.noConfusion hhit
  refine ⟨offlineTranslation reqWord freshId now entry, ?_,
    rfl, rfl, rfl, rfl, rfl, rfl⟩
  unfold translate_word
  rw [if_neg hw, hhit]

/-- Witness for C1 at the request word " Hello " (case- and
whitespace-insensitive hit on the "hello" entry). -/
theorem translate_offline_hit_witness :
    OFFLINE_DICTIONARY.lookup (normalizeWord " Hello ") = some helloEntry ∧
    (∃ t, (translate_word (fun _ => AiOutcome.serviceError) "id0" 0 []
        " Hello ").1 = .ok t ∧
      t.source = "offline" ∧
      t.bengaliTranslation = helloEntry.bengali ∧
      t.pronunciation = helloEntry.pronunciation ∧
      t.definition = helloEntry.definition ∧
      t.examples = helloEntry.examples ∧
      t.partOfSpeech = helloEntry.part_of_speech) :=
  ⟨by decide,
   translate_offline_hit (fun _ => AiOutcome.serviceError) " Hello " "id0" 0 []
     helloEntry (by decide)⟩

/-- C2: for every request whose word is empty after trimming, `/translate`
rejects with the 400 error, the stored collection is unchanged, and the
result does not depend on the AI oracle (no AI call is observable). -/
theorem translate_empty_word_rejected (ai₁ ai₂ : String → AiOutcome)
    (reqWord freshId : String) (now : Nat) (db : List Translation)
    (h : normalizeWord reqWord = "") :
    translate_word ai₁ freshId now db reqWord =
      (.badRequest "Word cannot be empty", db) ∧
    translate_word ai₁ freshId now db reqWord =
      translate_word ai₂ freshId now db reqWord := by
  constructor
  · unfold translate_word; rw [if_pos h]
  · unfold translate_word; rw [if_pos h, if_pos h]

/-- Witness for C2 at the whitespace-only request word "   ". -/
theorem translate_empty_word_rejected_witness :
    normalizeWord "   " = "" ∧
    (translate_word (fun _ => AiOutcome.serviceError) "id0" 0 [] "   " =
      (.badRequest "Word cannot be empty", []) ∧
     translate_word (fun _ => AiOutcome.serviceError) "id0" 0 [] "   " =
      translate_word (fun _ => AiOutcome.parsed {}) "id0" 0 [] "   ") :=
  ⟨by decide,
   translate_empty_word_rejected (fun _ => AiOutcome.serviceError)
     (fun _ => AiOutcome.parsed {}) "   " "id0" 0 [] (by decide)⟩

/-- C9: for every word that hits the offline dictionary, any two identical
`/translate` requests (possibly with different AI oracles, fresh ids,
clocks and store states) produce records that agree on every field except
`id` and `timestamp`. -/
theorem offline_repeat_same_content (ai₁ ai₂ : String → AiOutcome)
    (reqWord id₁ id₂ : String) (now₁ now₂ : Nat)
    (db₁ db₂ : List Translation) (entry : DictionaryEntry)
    (hhit : OFFLINE_DICTIONARY.lookup (normalizeWord reqWord) = some entry) :
    ∃ t₁ t₂,
      (translate_word ai₁ id₁ now₁ db₁ reqWord).1 = .ok t₁ ∧
      (translate_word ai₂ id₂ now₂ db₂ reqWord).1 = .ok t₂ ∧
      translationContent t₁ = translationContent t₂ := by
  have hw : ¬ normalizeWord reqWord = "" := by
    intro h
    rw [h, offline_lookup_empty] at hhit
    exact Option.noConfusion hhit
  refine ⟨offlineTranslation reqWord id₁ now₁ entry,
          offlineTranslation reqWord id₂ now₂ entry, ?_, ?_, rfl⟩
  · unfold translate_word; rw [if_neg hw, hhit]
  · unfold translate_word; rw [if_neg hw, hhit]

/-- Witness for C9: the word "Hello" requested twice with different ids,
clocks, oracles and store states. -/
theorem offline_repeat_same_content_witness :
    OFFLINE_DICTIONARY.lookup (normalizeWord "Hello") = some helloEntry ∧
    (∃ t₁ t₂,
      (translate_word (fun _ => AiOutcome.serviceError) "idA" 1 []
        "Hello").1 = .ok t₁ ∧
      (translate_word (fun _ => AiOutcome.malformed) "idB" 2
        [fallbackTranslation "x" "id9" 0] "Hello").1 = .ok t₂ ∧
      translationContent t₁ = translationContent t₂) :=
  ⟨by decide,
   offline_repeat_same_content (fun _ => AiOutcome.serviceError)
     (fun _ => AiOutcome.malformed) "Hello" "idA" "idB" 1 2 []
     [fallbackTranslation "x" "id9" 0] helloEntry (by decide)⟩

/-- C3: both AI failure modes (exception during the external call, or a
response body that does not parse as JSON) are mapped to `none` by
`get_ai_translation` — which is total, so nothing is thrown to the caller —
and on a dictionary miss resolution then proceeds to the template fallback,
returning a 200 record rather than an error. -/
theorem ai_failure_silently_falls_back (ai : String → AiOutcome)
    (reqWord freshId : String) (now : Nat) (db : List Translation)
    (hw : ¬ normalizeWord reqWord = "")
    (hmiss : OFFLINE_DICTIONARY.lookup (normalizeWord reqWord) = none)
    (hfail : ai (normalizeWord reqWord) = .serviceError ∨
             ai (normalizeWord reqWord) = .malformed) :
    get_ai_translation ai (normalizeWord reqWord) = none ∧
    ∃ t, (translate_word ai freshId now db reqWord).1 = .ok t ∧
      t.source = "fallback" := by
  have hnone : get_ai_translation ai (normalizeWord reqWord) = none := by
    unfold get_ai_translation
    rcases hfail with h | h <;> rw [h]
  refine ⟨hnone, fallbackTranslation reqWord freshId now, ?_, rfl⟩
  unfold translate_word
  rw [if_neg hw, hmiss, hnone]

/-- Witness for C3 at the out-of-dictionary word "zzz" with an oracle that
raises a service error. -/
theorem ai_failure_silently_falls_back_witness :
    (¬ normalizeWord "zzz" = "") ∧
    OFFLINE_DICTIONARY.lookup (normalizeWord "zzz") = none ∧
    ((fun _ => AiOutcome.serviceError : String → AiOutcome)
        (normalizeWord "zzz") = .serviceError ∨
     (fun _ => AiOutcome.serviceError : String → AiOutcome)
        (normalizeWord "zzz") = .malformed) ∧
    (get_ai_translation (fun _ => AiOutcome.serviceError)
        (normalizeWord "zzz") = none ∧
     ∃ t, (translate_word (fun _ => AiOutcome.serviceError) "id0" 0 []
        "zzz").1 = .ok t ∧ t.source = "fallback") :=
  ⟨by decide, by decide, by decide,
   ai_failure_silently_falls_back (fun _ => AiOutcome.serviceError) "zzz"
     "id0" 0 [] (by decide) (by decide) (by decide)⟩

/-- C5: on a dictionary miss, when the AI oracle returns a (truthy) parsed
entry, `/translate` builds a `source=ai` record in which each missing field
of the AI response is replaced by its fixed default: the Bengali
"translation not found" placeholder for the translation, "unknown" for the
part of speech, the empty sequence for the examples (and "" /
"No definition available" for pronunciation / definition). -/
theorem translate_ai_hit_defaults (ai : String → AiOutcome)
    (reqWord freshId : String) (now : Nat) (db : List Translation)
    (e : AiEntry)
    (hw : ¬ normalizeWord reqWord = "")
    (hmiss : OFFLINE_DICTIONARY.lookup (normalizeWord reqWord) = none)
    (hai : ai (normalizeWord reqWord) = .parsed e)
    (hne : aiEntryNonempty e = true) :
    ∃ t, (translate_word ai freshId now db reqWord).1 = .ok t ∧
      t.source = "ai" ∧
      t.bengaliTranslation = e.bengali.getD "অনুবাদ পাওয়া যায়নি" ∧
      t.pronunciation = e.pronunciation.getD "" ∧
      t.definition = e.definition.getD "No definition available" ∧
      t.examples = e.examples.getD [] ∧
      t.partOfSpeech = e.part_of_speech.getD "unknown" := by
  have hga : get_ai_translation ai (normalizeWord reqWord) = some e := by
    unfold get_ai_translation; rw [hai]
  refine ⟨aiTranslation reqWord freshId now e, ?_,
    rfl, rfl, rfl, rfl, rfl, rfl⟩
  unfold translate_word
  rw [if_neg hw, hmiss, hga]
  simp [hne]

/-- An AI response object carrying none of the five prompted fields, only
an unrelated key (`{"note": ...}` in JSON terms): truthy as a Python dict,
but every prompted field is missing. -/
def bareAiEntry : AiEntry := { extraKeys := ["note"] }

/-- Witness for C5 at the word "zzz" with an AI response missing all five
prompted fields: every field of the record is the fixed default. -/
theorem translate_ai_hit_defaults_witness :
    (¬ normalizeWord "zzz" = "") ∧
    OFFLINE_DICTIONARY.lookup (normalizeWord "zzz") = none ∧
    (fun _ => AiOutcome.parsed bareAiEntry : String → AiOutcome)
      (normalizeWord "zzz") = .parsed bareAiEntry ∧
    aiEntryNonempty bareAiEntry = true ∧
    (∃ t, (translate_word (fun _ => AiOutcome.parsed bareAiEntry) "id0" 0 []
        "zzz").1 = .ok t ∧
      t.source = "ai" ∧
      t.bengaliTranslation = bareAiEntry.bengali.getD "অনুবাদ পাওয়া যায়নি" ∧
      t.pronunciation = bareAiEntry.pronunciation.getD "" ∧
      t.definition = bareAiEntry.definition.getD "No definition available" ∧
      t.examples = bareAiEntry.examples.getD [] ∧
      t.partOfSpeech = bareAiEntry.part_of_speech.getD "unknown") :=
  ⟨by decide, by decide, by decide, by decide,
   translate_ai_hit_defaults (fun _ => AiOutcome.parsed bareAiEntry) "zzz"
     "id0" 0 [] bareAiEntry (by decide) (by decide) (by decide) (by decide)⟩

/-- C6: for a word absent from the dictionary, when `get_ai_translation`
returns `none`, `/translate` returns a 200 record with `source=fallback`,
Bengali field the template embedding the lowercased word, definition
synthesized similarly, exactly one synthesized example, and part of speech
"unknown". -/
theorem translate_fallback_content (ai : String → AiOutcome)
    (reqWord freshId : String) (now : Nat) (db : List Translation)
    (hw : ¬ normalizeWord reqWord = "")
    (hmiss : OFFLINE_DICTIONARY.lookup (normalizeWord reqWord) = none)
    (hfail : get_ai_translation ai (normalizeWord reqWord) = none) :
    ∃ t, (translate_word ai freshId now db reqWord).1 = .ok t ∧
      t.source = "fallback" ∧
      t.bengaliTranslation =
        "\x27" ++ normalizeWord reqWord ++ "\x27 এর বাংলা অনুবাদ" ∧
      t.definition =
        "Translation for the word \x27" ++ normalizeWord reqWord ++ "\x27" ∧
      t.examples = ["Example with " ++ normalizeWord reqWord] ∧
      t.examples.length = 1 ∧
      t.partOfSpeech = "unknown" := by
  refine ⟨fallbackTranslation reqWord freshId now, ?_,
    rfl, rfl, rfl, rfl, rfl, rfl⟩
  unfold translate_word
  rw [if_neg hw, hmiss, hfail]

/-- Witness for C6 at the request word " ZzQq-Nonexistent " with an oracle
returning an unparseable body: the Bengali field embeds the lowercased
trimmed word. -/
theorem translate_fallback_content_witness :
    (¬ normalizeWord " ZzQq-Nonexistent " = "") ∧
    OFFLINE_DICTIONARY.lookup (normalizeWord " ZzQq-Nonexistent ") = none ∧
    get_ai_translation (fun _ => AiOutcome.malformed)
      (normalizeWord " ZzQq-Nonexistent ") = none ∧
    (∃ t, (translate_word (fun _ => AiOutcome.malformed) "id0" 0 []
        " ZzQq-Nonexistent ").1 = .ok t ∧
      t.source = "fallback" ∧
      t.bengaliTranslation =
        "\x27" ++ normalizeWord " ZzQq-Nonexistent " ++
          "\x27 এর বাংলা অনুবাদ" ∧
      t.definition =
        "Translation for the word \x27" ++
          normalizeWord " ZzQq-Nonexistent " ++ "\x27" ∧
      t.examples = ["Example with " ++ normalizeWord " ZzQq-Nonexistent "] ∧
      t.examples.length = 1 ∧
      t.partOfSpeech = "unknown") :=
  ⟨by decide, by decide, by decide,
   translate_fallback_content (fun _ => AiOutcome.malformed)
     " ZzQq-Nonexistent " "id0" 0 [] (by decide) (by decide) (by decide)⟩

/-- C10: on a valid request for a word absent from the dictionary, when the
AI oracle returns a parsed but empty object (falsy as a Python dict),
`/translate` takes the template fallback path without persisting; and a
`source=ai` record is returned only when the parsed entry is non-empty. -/
theorem translate_ai_empty_entry (ai : String → AiOutcome)
    (reqWord freshId : String) (now : Nat) (db : List Translation)
    (e : AiEntry)
    (hw : ¬ normalizeWord reqWord = "")
    (hmiss : OFFLINE_DICTIONARY.lookup (normalizeWord reqWord) = none)
    (hai : ai (normalizeWord reqWord) = .parsed e) :
    (aiEntryNonempty e = false →
      translate_word ai freshId now db reqWord =
        (.ok (fallbackTranslation reqWord freshId now), db) ∧
      (fallbackTranslation reqWord freshId now).source = "fallback") ∧
    (∀ t, (translate_word ai freshId now db reqWord).1 = .ok t →
      t.source = "ai" → aiEntryNonempty e = true) := by
  have hga : get_ai_translation ai (normalizeWord reqWord) = some e := by
    unfold get_ai_translation; rw [hai]
  constructor
  · intro hempty
    refine ⟨?_, rfl⟩
    unfold translate_word
    rw [if_neg hw, hmiss, hga]
    simp [hempty]
  · intro t ht hsrc
    cases hne : aiEntryNonempty e with
    | true => rfl
    | false =>
        exfalso
        have hres : translate_word ai freshId now db reqWord =
            (.ok (fallbackTranslation reqWord freshId now), db) := by
          unfold translate_word
          rw [if_neg hw, hmiss, hga]
          simp [hne]
        rw [hres] at ht
        have ht' : fallbackTranslation reqWord freshId now = t := by
          injection ht
        rw [← ht'] at hsrc
        have hsf : (fallbackTranslation reqWord freshId now).source =
            "fallback" := rfl
        rw [hsf] at hsrc
        exact absurd hsrc (by decide)

/-- Witness for C10 at the word "zzz" with the oracle returning the empty
JSON object. -/
theorem translate_ai_empty_entry_witness :
    (¬ normalizeWord "zzz" = "") ∧
    OFFLINE_DICTIONARY.lookup (normalizeWord "zzz") = none ∧
    (fun _ => AiOutcome.parsed {} : String → AiOutcome) (normalizeWord "zzz")
      = .parsed {} ∧
    ((aiEntryNonempty {} = false →
      translate_word (fun _ => AiOutcome.parsed {}) "id0" 0 [] "zzz" =
        (.ok (fallbackTranslation "zzz" "id0" 0), []) ∧
      (fallbackTranslation "zzz" "id0" 0).source = "fallback") ∧
     (∀ t, (translate_word (fun _ => AiOutcome.parsed {}) "id0" 0 []
        "zzz").1 = .ok t →
      t.source = "ai" → aiEntryNonempty {} = true)) :=
  ⟨by decide, by decide, by decide,
   translate_ai_empty_entry (fun _ => AiOutcome.parsed {}) "zzz" "id0" 0 []
     {} (by decide) (by decide) (by decide)⟩

/-- Exhaustive case analysis of `translate_word`: exactly one of the 400
rejection, the offline branch, the AI branch, or the template fallback
applies, with the corresponding result pair. -/
theorem translate_word_cases (ai : String → AiOutcome) (freshId : String)
    (now : Nat) (db : List Translation) (reqWord : String) :
    (normalizeWord reqWord = "" ∧
      translate_word ai freshId now db reqWord =
        (.badRequest "Word cannot be empty", db)) ∨
    (¬ normalizeWord reqWord = "" ∧
      ∃ d, OFFLINE_DICTIONARY.lookup (normalizeWord reqWord) = some d ∧
        translate_word ai freshId now db reqWord =
          (.ok (offlineTranslation reqWord freshId now d),
           db ++ [offlineTranslation reqWord freshId now d])) ∨
    (¬ normalizeWord reqWord = "" ∧
      OFFLINE_DICTIONARY.lookup (normalizeWord reqWord) = none ∧
      ∃ e, get_ai_translation ai (normalizeWord reqWord) = some e ∧
        aiEntryNonempty e = true ∧
        translate_word ai freshId now db reqWord =
          (.ok (aiTranslation reqWord freshId now e),
           db ++ [aiTranslation reqWord freshId now e])) ∨
    (¬ normalizeWord reqWord = "" ∧
      OFFLINE_DICTIONARY.lookup (normalizeWord reqWord) = none ∧
      translate_word ai freshId now db reqWord =
        (.ok (fallbackTranslation reqWord freshId now), db)) := by
  by_cases hw : normalizeWord reqWord = ""
  · exact Or.inl ⟨hw, by unfold translate_word; rw [if_pos hw]⟩
  · cases hl : OFFLINE_DICTIONARY.lookup (normalizeWord reqWord) with
    | some d =>
        exact Or.inr (Or.inl ⟨hw, d, rfl,
          by unfold translate_word; rw [if_neg hw, hl]⟩)
    | none =>
        cases hga : get_ai_translation ai (normalizeWord reqWord) with
        | some e =>
            cases hne : aiEntryNonempty e with
            | true =>
                exact Or.inr (Or.inr (Or.inl ⟨hw, rfl, e, rfl, hne,
                  by unfold translate_word; rw [if_neg hw, hl, hga];
                     simp [hne]⟩))
            | false =>
                exact Or.inr (Or.inr (Or.inr ⟨hw, rfl,
                  by unfold translate_word; rw [if_neg hw, hl, hga];
                     simp [hne]⟩))
        | none =>
            exact Or.inr (Or.inr (Or.inr ⟨hw, rfl,
              by unfold translate_word; rw [if_neg hw, hl, hga]⟩))

/-- C4: every record produced by the offline or AI branch is appended to the
stored collection before being returned, while a record produced by the
template fallback is returned with the stored collection unchanged. -/
theorem translate_persistence_frame (ai : String → AiOutcome)
    (reqWord freshId : String) (now : Nat) (db : List Translation)
    (t : Translation)
    (h : (translate_word ai freshId now db reqWord).1 = .ok t) :
    ((t.source = "offline" ∨ t.source = "ai") →
      (translate_word ai freshId now db reqWord).2 = db ++ [t]) ∧
    (t.source = "fallback" →
      (translate_word ai freshId now db reqWord).2 = db) := by
  rcases translate_word_cases ai freshId now db reqWord with
    ⟨hw, heq⟩ | ⟨hw, d, hl, heq⟩ | ⟨hw, hl, e, hga, hne, heq⟩ | ⟨hw, hl, heq⟩
  · rw [heq] at h
    exact absurd h (by simp)
  · rw [heq] at h ⊢
    have ht : offlineTranslation reqWord freshId now d = t := by injection h
    constructor
    · intro _; rw [← ht]
    · intro hsrc
      rw [← ht] at hsrc
      have : (offlineTranslation reqWord freshId now d).source =
          "offline" := rfl
      rw [this] at hsrc
      exact absurd hsrc (by decide)
  · rw [heq] at h ⊢
    have ht : aiTranslation reqWord freshId now e = t := by injection h
    constructor
    · intro _; rw [← ht]
    · intro hsrc
      rw [← ht] at hsrc
      have : (aiTranslation reqWord freshId now e).source = "ai" := rfl
      rw [this] at hsrc
      exact absurd hsrc (by decide)
  · rw [heq] at h ⊢
    have ht : fallbackTranslation reqWord freshId now = t := by injection h
    constructor
    · intro hsrc
      rw [← ht] at hsrc
      have : (fallbackTranslation reqWord freshId now).source =
          "fallback" := rfl
      rw [this] at hsrc
      rcases hsrc with hsrc | hsrc <;> exact absurd hsrc (by decide)
    · intro _; rfl

/-- Witness for C4 at the offline-hit word "hello": the returned record is
appended to the store. -/
theorem translate_persistence_frame_witness :
    (translate_word (fun _ => AiOutcome.serviceError) "id0" 0 []
      "hello").1 = .ok (offlineTranslation "hello" "id0" 0 helloEntry) ∧
    ((((offlineTranslation "hello" "id0" 0 helloEntry).source = "offline" ∨
       (offlineTranslation "hello" "id0" 0 helloEntry).source = "ai") →
      (translate_word (fun _ => AiOutcome.serviceError) "id0" 0 []
        "hello").2 = [] ++ [offlineTranslation "hello" "id0" 0 helloEntry]) ∧
     ((offlineTranslation "hello" "id0" 0 helloEntry).source = "fallback" →
      (translate_word (fun _ => AiOutcome.serviceError) "id0" 0 []
        "hello").2 = [])) :=
  ⟨by decide,
   translate_persistence_frame (fun _ => AiOutcome.serviceError) "hello"
     "id0" 0 [] (offlineTranslation "hello" "id0" 0 helloEntry) (by decide)⟩

/-- C8: the `offline_words` field of `/dictionary/stats` equals the fixed
offline dictionary size, 15, after any sequence of prior `/translate`
requests run from any starting store state (the dictionary constant is
never written by any operation of the program). -/
theorem stats_offline_words_constant (calls : List TranslateCall)
    (db : List Translation) :
    (get_dictionary_stats (runTranslations calls db)).offline_words = 15 ∧
    (get_dictionary_stats (runTranslations calls db)).offline_words =
      OFFLINE_DICTIONARY.length :=
  ⟨rfl, rfl⟩

instance : DecidableRel (fun a b : Translation => b.timestamp ≤ a.timestamp) :=
  fun a b => Nat.decLe b.timestamp a.timestamp

instance : IsTotal Translation (fun a b => b.timestamp ≤ a.timestamp) :=
  ⟨fun a b => (Nat.le_total a.timestamp b.timestamp).symm⟩

instance : IsTrans Translation (fun a b => b.timestamp ≤ a.timestamp) :=
  ⟨fun _ _ _ hab hbc => Nat.le_trans hbc hab⟩

/-- C7 (amended): for every non-negative limit N, `GET /translations`
returns at most N records, ordered by creation time descending — newest
first, non-strictly: each record's creation time is ≥ the next's — and the
limit defaults to 50 when unspecified. The order is strictly descending
whenever the stored creation times are pairwise distinct; the original
"strictly ordered" wording fails on stores with tied creation times, which
nothing in the program rules out (see the counterexample below). -/
theorem translations_limit_and_order (limit : Nat) (db : List Translation) :
    (get_recent_translations limit db).length ≤ limit ∧
    (get_recent_translations limit db).Sorted
      (fun a b => b.timestamp ≤ a.timestamp) ∧
    (db.Pairwise (fun a b => a.timestamp ≠ b.timestamp) →
      (get_recent_translations limit db).Sorted
        (fun a b => b.timestamp < a.timestamp)) ∧
    get_recent_translations_default db = get_recent_translations 50 db := by
  refine ⟨?_, ?_, ?_, rfl⟩
  · unfold get_recent_translations
    rw [List.length_take]
    exact min_le_left _ _
  · exact List.Pairwise.sublist (List.take_sublist _ _)
      (List.sorted_insertionSort _ db)
  · intro hdist
    have hsorted :=
      List.sorted_insertionSort
        (fun a b : Translation => b.timestamp ≤ a.timestamp) db
    have hperm :=
      List.perm_insertionSort
        (fun a b : Translation => b.timestamp ≤ a.timestamp) db
    have hd2 :
        (List.insertionSort
          (fun a b : Translation => b.timestamp ≤ a.timestamp) db).Pairwise
          (fun a b => a.timestamp ≠ b.timestamp) :=
      (hperm.pairwise_iff (fun hxy => Ne.symm hxy)).mpr hdist
    have hstrict :
        (List.insertionSort
          (fun a b : Translation => b.timestamp ≤ a.timestamp) db).Pairwise
          (fun a b => b.timestamp < a.timestamp) :=
      (hsorted.and hd2).imp
        (fun h => Nat.lt_of_le_of_ne h.1 (Ne.symm h.2))
    exact List.Pairwise.sublist (List.take_sublist _ _) hstrict

/-- A translation record with blank content and a given timestamp, for
concrete instantiations of ordering properties. -/
def blankRecord (ts : Nat) : Translation :=
  { id := "", word := "", bengaliTranslation := "", pronunciation := "",
    definition := "", examples := [], partOfSpeech := "", timestamp := ts,
    source := "" }

/-- Witness for C7 at limit 1 over a store of two records with distinct
creation times. -/
theorem translations_limit_and_order_witness :
    ([blankRecord 3, blankRecord 9] : List Translation).Pairwise
      (fun a b => a.timestamp ≠ b.timestamp) ∧
    (get_recent_translations 1 [blankRecord 3, blankRecord 9]).Sorted
      (fun a b => b.timestamp < a.timestamp) :=
  ⟨by decide,
   (translations_limit_and_order 1 [blankRecord 3, blankRecord 9]).2.2.1
     (by decide)⟩

/-- Counterexample to C7 as originally stated: with two distinct records
sharing the creation time 5 in the store (nothing in the program prevents
ties — `datetime.utcnow()` has finite resolution and no uniqueness is
enforced), `GET /translations?limit=2` returns both records, and the
returned sequence is NOT strictly ordered by creation time descending. -/
theorem translations_strict_order_counterexample :
    (get_recent_translations 2
      [{ blankRecord 5 with id := "a" },
       { blankRecord 5 with id := "b" }]).length = 2 ∧
    ¬ (get_recent_translations 2
      [{ blankRecord 5 with id := "a" },
       { blankRecord 5 with id := "b" }]).Sorted
        (fun a b => b.timestamp < a.timestamp) := by decide

end BengaliDict
